import Mathlib

/-!
Shallow embedding of the repayment-allocation core of the AsanaTTI SACCO
lending system.  The embedded code is:

* `repayments/models.py`: `RepaymentSchedule.save`, `RepaymentTransaction.save`,
  `RepaymentTransaction.update_loan_balances`,
  `RepaymentTransaction.allocate_to_schedules`;
* `loans/models.py`: the `Loan` ledger fields, `Loan.completion_percentage`,
  `LoanApplication.calculated_interest`;
* `loans/admin.py`: `LoanAdmin.mark_as_completed`.

Python `Decimal` amounts are embedded as exact rationals (the allocation code
only adds, subtracts, compares and takes `min`/`max`, all of which are exact on
two-decimal-place `Decimal` values).  Dates are embedded as integers (ordinal
day numbers), so `date.today()` becomes an explicit `today : Int` parameter.
Django persistence is made explicit: a model instance is a record, `save`
returns the updated record, and the queryset iteration of
`allocate_to_schedules` becomes a fold over the filtered, due-date-sorted list
of installment records.  The interest formulas mix Python `Decimal`, `int` and
`float` values; the `PyNum` type embeds that three-sorted arithmetic, with
`none` denoting a Python `TypeError` (the `decimal` module refuses arithmetic
with `float` operands).
-/

namespace AsanaTTI

/-- Status choices of `RepaymentSchedule` in `repayments/models.py`.  The
Django value `partial` is spelled `partiallyPaid` here because that word is a
Lean keyword. -/
inductive SchedStatus where
  | pending
  | paid
  | partiallyPaid
  | overdue
  | waived
deriving DecidableEq, Repr, Inhabited

/-- The `RepaymentSchedule` model (one loan installment), with the fields the
allocation logic reads or writes.  `payment_date` is `none` when the Django
field is NULL. -/
structure RepaymentSchedule where
  installment_number : Nat
  due_date : Int
  principal_amount : ℚ
  interest_amount : ℚ
  total_amount : ℚ
  principal_paid : ℚ
  interest_paid : ℚ
  penalty_paid : ℚ
  total_paid : ℚ
  principal_outstanding : ℚ
  interest_outstanding : ℚ
  penalty_outstanding : ℚ
  total_outstanding : ℚ
  status : SchedStatus
  payment_date : Option Int
  days_overdue : Nat
deriving DecidableEq, Repr, Inhabited

/-- `RepaymentSchedule.save` from `repayments/models.py` (lines 56 to 77):
recompute `principal_outstanding`, `interest_outstanding` and
`total_outstanding`, then derive `status` from the paid amounts and the due
date.  Note that the stored field `penalty_outstanding` is not recomputed;
only `total_outstanding` subtracts `penalty_paid`. -/
def RepaymentSchedule.save (today : Int) (s : RepaymentSchedule) : RepaymentSchedule :=
  let principal_outstanding := s.principal_amount - s.principal_paid
  let interest_outstanding := s.interest_amount - s.interest_paid
  let total_outstanding := principal_outstanding + interest_outstanding +
    s.penalty_outstanding - s.penalty_paid
  if s.total_amount + s.penalty_outstanding ≤ s.total_paid then
    { s with principal_outstanding := principal_outstanding,
             interest_outstanding := interest_outstanding,
             total_outstanding := total_outstanding,
             status := SchedStatus.paid,
             payment_date := match s.payment_date with
                             | none => some today
                             | some d => some d }
  else if 0 < s.total_paid then
    { s with principal_outstanding := principal_outstanding,
             interest_outstanding := interest_outstanding,
             total_outstanding := total_outstanding,
             status := SchedStatus.partiallyPaid }
  else if s.due_date < today then
    { s with principal_outstanding := principal_outstanding,
             interest_outstanding := interest_outstanding,
             total_outstanding := total_outstanding,
             status := SchedStatus.overdue,
             days_overdue := (today - s.due_date).toNat }
  else
    { s with principal_outstanding := principal_outstanding,
             interest_outstanding := interest_outstanding,
             total_outstanding := total_outstanding,
             status := SchedStatus.pending }

/-- The installment status rule exactly as the specification words it, for
comparison with the status computed by `RepaymentSchedule.save`. -/
def statusPerSpec (today : Int) (s : RepaymentSchedule) : SchedStatus :=
  if s.total_paid ≥ s.total_amount + s.penalty_outstanding then SchedStatus.paid
  else if s.total_paid > 0 then SchedStatus.partiallyPaid
  else if s.due_date < today then SchedStatus.overdue
  else SchedStatus.pending

/-- The filter `status__in=[pending, partial, overdue]` used by
`allocate_to_schedules` to select installments. -/
def selectable (s : RepaymentSchedule) : Bool :=
  match s.status with
  | SchedStatus.pending => true
  | SchedStatus.partiallyPaid => true
  | SchedStatus.overdue => true
  | _ => false

/-- The `order_by(due_date)` ordering relation on installments. -/
def dueLE (a b : RepaymentSchedule) : Prop := a.due_date ≤ b.due_date

instance : DecidableRel dueLE := fun a b => Int.decLe a.due_date b.due_date

instance : IsTotal RepaymentSchedule dueLE := ⟨fun a b => Int.le_total a.due_date b.due_date⟩

instance : IsTrans RepaymentSchedule dueLE := ⟨fun _ _ _ h h2 => le_trans h h2⟩

/-- The waterfall split of one payment slice inside a single installment
(`allocate_to_schedules`, lines 242 to 251): penalty first, then interest,
then principal, each `min`-capped at the corresponding outstanding field. -/
def allocTriple (s : RepaymentSchedule) (pfs : ℚ) : ℚ × ℚ × ℚ :=
  let penalty_payment := min pfs s.penalty_outstanding
  let interest_payment := min (pfs - penalty_payment) s.interest_outstanding
  let principal_payment := min (pfs - penalty_payment - interest_payment) s.principal_outstanding
  (penalty_payment, interest_payment, principal_payment)

/-- One iteration of the `for schedule in schedules` loop body of
`allocate_to_schedules` (lines 236 to 256): compute
`schedule_outstanding = total_outstanding + penalty_outstanding`, cap the
payment slice at it, run the waterfall, add to the paid fields, call
`RepaymentSchedule.save`, and subtract the allocated sum from the remaining
amount.  When the capped slice is not positive the installment is untouched. -/
def allocateStep (today : Int) (s : RepaymentSchedule) (remaining : ℚ) :
    RepaymentSchedule × ℚ :=
  let schedule_outstanding := s.total_outstanding + s.penalty_outstanding
  let pfs := min remaining schedule_outstanding
  if 0 < pfs then
    let t := allocTriple s pfs
    (RepaymentSchedule.save today
      { s with penalty_paid := s.penalty_paid + t.1,
               interest_paid := s.interest_paid + t.2.1,
               principal_paid := s.principal_paid + t.2.2,
               total_paid := s.total_paid + (t.1 + t.2.1 + t.2.2) },
     remaining - (t.1 + t.2.1 + t.2.2))
  else (s, remaining)

/-- The loop of `allocate_to_schedules` over the selected installments: stop
(`break`) as soon as the remaining amount is not positive, otherwise process
the head and continue with the reduced remainder.  Returns the updated
installments together with the final remaining amount. -/
def allocateList (today : Int) : List RepaymentSchedule → ℚ →
    List RepaymentSchedule × ℚ
  | [], r => ([], r)
  | s :: rest, r =>
    if r ≤ 0 then (s :: rest, r)
    else
      let x := allocateStep today s r
      let y := allocateList today rest x.2
      (x.1 :: y.1, y.2)

/-- The queryset of `allocate_to_schedules` (lines 227 to 230): installments
with status in pending, partial, overdue, ordered ascending by due date. -/
def selectSorted (ss : List RepaymentSchedule) : List RepaymentSchedule :=
  List.insertionSort dueLE (ss.filter selectable)

/-- `RepaymentTransaction.allocate_to_schedules` (lines 222 to 256): allocate
the transaction amount over the selected installments in due-date order.
Installments outside the queryset filter are never read or written; the result
is the list of selected installments after the loop, plus the unallocated
remainder. -/
def allocate_to_schedules (today : Int) (amount : ℚ)
    (ss : List RepaymentSchedule) : List RepaymentSchedule × ℚ :=
  allocateList today (selectSorted ss) amount

/-- Status choices of the `Loan` model in `loans/models.py`. -/
inductive LoanStatus where
  | active
  | completed
  | defaulted
  | written_off
  | restructured
deriving DecidableEq, Repr, Inhabited

/-- The `Loan` ledger, with the fields read or written by the repayment flow. -/
structure Loan where
  principal_amount : ℚ
  interest_rate : ℚ
  term_months : Nat
  total_interest : ℚ
  outstanding_balance : ℚ
  outstanding_interest : ℚ
  total_paid : ℚ
  penalty_balance : ℚ
  status : LoanStatus
deriving DecidableEq, Repr, Inhabited

/-- Status choices of `RepaymentTransaction`. -/
inductive TxnStatus where
  | pending
  | completed
  | failed
  | cancelled
  | reversed
deriving DecidableEq, Repr, Inhabited

/-- The `RepaymentTransaction` model: the payment amount, the three allocation
breakdown fields (which default to 0 and are never written by
`allocate_to_schedules`), and the status. -/
structure RepaymentTransaction where
  amount : ℚ
  principal_amount : ℚ
  interest_amount : ℚ
  penalty_amount : ℚ
  status : TxnStatus
deriving DecidableEq, Repr, Inhabited

/-- The combined outstanding of a loan: balance plus interest plus penalty. -/
def combinedOutstanding (l : Loan) : ℚ :=
  l.outstanding_balance + l.outstanding_interest + l.penalty_balance

/-- `RepaymentTransaction.update_loan_balances`, loan-ledger part (lines 194
to 217): add the full transaction amount to `total_paid`, subtract the
transaction breakdown fields from the three balances, clamp each balance at
zero from below, and set the status to completed when the combined outstanding
is at most 1.00. -/
def update_loan_balances (t : RepaymentTransaction) (loan : Loan) : Loan :=
  let loan1 := { loan with
    total_paid := loan.total_paid + t.amount,
    outstanding_balance := max (loan.outstanding_balance - t.principal_amount) 0,
    outstanding_interest := max (loan.outstanding_interest - t.interest_amount) 0,
    penalty_balance := max (loan.penalty_balance - t.penalty_amount) 0 }
  if combinedOutstanding loan1 ≤ 1 then { loan1 with status := LoanStatus.completed }
  else loan1

/-- `RepaymentTransaction.save` (lines 171 to 192), after the transaction
number generation: persist the transaction, and when its status is completed
run `update_loan_balances` followed by `allocate_to_schedules`.  The second
component is `none` when no allocation ran. -/
def RepaymentTransaction.save (today : Int) (t : RepaymentTransaction)
    (loan : Loan) (ss : List RepaymentSchedule) :
    Loan × Option (List RepaymentSchedule × ℚ) :=
  if t.status = TxnStatus.completed then
    (update_loan_balances t loan, some (allocate_to_schedules today t.amount ss))
  else (loan, none)

/-- `LoanAdmin.mark_as_completed` from `loans/admin.py` (lines 281 to 284),
restricted to one loan: `queryset.filter(status=active).update(status=completed)`
sets the status of every selected active loan to completed, with no check of
the outstanding balances. -/
def mark_as_completed (l : Loan) : Loan :=
  if l.status = LoanStatus.active then { l with status := LoanStatus.completed } else l

/-- `Loan.completion_percentage` from `loans/models.py` (lines 305 to 311). -/
def completion_percentage (l : Loan) : ℚ :=
  if l.principal_amount + l.total_interest = 0 then 0
  else l.total_paid / (l.principal_amount + l.total_interest) * 100

/-- The `MinValueValidator(0)` on `RepaymentTransaction.amount` (line 125):
a value passes validation exactly when it is at least zero. -/
def amount_is_valid (a : ℚ) : Bool := decide (0 ≤ a)

/-- Python numeric values as they appear in `calculated_interest`: `int`,
`decimal.Decimal` and `float` are distinct runtime sorts.  Both `Decimal` and
`float` are embedded by their exact rational value; this is faithful for every
computation that actually completes in the embedded code paths. -/
inductive PyNum where
  | pint (n : Int)
  | pdec (q : ℚ)
  | pfloat (q : ℚ)
deriving DecidableEq, Repr

/-- Python addition on `PyNum`.  `Decimal` refuses `float` operands with a
`TypeError`, embedded as `none`. -/
def pyAdd : PyNum → PyNum → Option PyNum
  | PyNum.pint a, PyNum.pint b => some (PyNum.pint (a + b))
  | PyNum.pint a, PyNum.pdec b => some (PyNum.pdec (a + b))
  | PyNum.pdec a, PyNum.pint b => some (PyNum.pdec (a + b))
  | PyNum.pdec a, PyNum.pdec b => some (PyNum.pdec (a + b))
  | PyNum.pint a, PyNum.pfloat b => some (PyNum.pfloat (a + b))
  | PyNum.pfloat a, PyNum.pint b => some (PyNum.pfloat (a + b))
  | PyNum.pfloat a, PyNum.pfloat b => some (PyNum.pfloat (a + b))
  | _, _ => none

/-- Python subtraction on `PyNum`, with the same sort rules as `pyAdd`. -/
def pySub : PyNum → PyNum → Option PyNum
  | PyNum.pint a, PyNum.pint b => some (PyNum.pint (a - b))
  | PyNum.pint a, PyNum.pdec b => some (PyNum.pdec (a - b))
  | PyNum.pdec a, PyNum.pint b => some (PyNum.pdec (a - b))
  | PyNum.pdec a, PyNum.pdec b => some (PyNum.pdec (a - b))
  | PyNum.pint a, PyNum.pfloat b => some (PyNum.pfloat (a - b))
  | PyNum.pfloat a, PyNum.pint b => some (PyNum.pfloat (a - b))
  | PyNum.pfloat a, PyNum.pfloat b => some (PyNum.pfloat (a - b))
  | _, _ => none

/-- Python multiplication on `PyNum`, with the same sort rules as `pyAdd`:
in particular `Decimal * float` is a `TypeError`. -/
def pyMul : PyNum → PyNum → Option PyNum
  | PyNum.pint a, PyNum.pint b => some (PyNum.pint (a * b))
  | PyNum.pint a, PyNum.pdec b => some (PyNum.pdec (a * b))
  | PyNum.pdec a, PyNum.pint b => some (PyNum.pdec (a * b))
  | PyNum.pdec a, PyNum.pdec b => some (PyNum.pdec (a * b))
  | PyNum.pint a, PyNum.pfloat b => some (PyNum.pfloat (a * b))
  | PyNum.pfloat a, PyNum.pint b => some (PyNum.pfloat (a * b))
  | PyNum.pfloat a, PyNum.pfloat b => some (PyNum.pfloat (a * b))
  | _, _ => none

/-- Python true division on `PyNum`: `int / int` yields `float`; `Decimal`
division keeps the `Decimal` sort; `Decimal` with `float` is a `TypeError`. -/
def pyDiv : PyNum → PyNum → Option PyNum
  | PyNum.pint a, PyNum.pint b => some (PyNum.pfloat ((a : ℚ) / (b : ℚ)))
  | PyNum.pint a, PyNum.pdec b => some (PyNum.pdec (a / b))
  | PyNum.pdec a, PyNum.pint b => some (PyNum.pdec (a / b))
  | PyNum.pdec a, PyNum.pdec b => some (PyNum.pdec (a / b))
  | PyNum.pint a, PyNum.pfloat b => some (PyNum.pfloat (a / b))
  | PyNum.pfloat a, PyNum.pint b => some (PyNum.pfloat (a / b))
  | PyNum.pfloat a, PyNum.pfloat b => some (PyNum.pfloat (a / b))
  | _, _ => none

/-- Python power on `PyNum`, restricted to the shapes that matter for
`calculated_interest`: a `Decimal` base with a `float` exponent is a
`TypeError` (this is the shape the compound branch produces); a `Decimal` or
`int` base with a nonnegative `int` exponent is exact.  Other shapes produce
genuine `float` powers whose values are irrational in general; they are
unreachable from `calculated_interest` and are embedded as `none`. -/
def pyPow : PyNum → PyNum → Option PyNum
  | PyNum.pdec a, PyNum.pint n => some (PyNum.pdec (a ^ n.toNat))
  | PyNum.pint a, PyNum.pint n => some (PyNum.pint (a ^ n.toNat))
  | _, _ => none

/-- The three interest calculation methods of `LoanType`. -/
inductive InterestMethod where
  | flat
  | reducing
  | compound
deriving DecidableEq, Repr

/-- `LoanApplication.calculated_interest` (`loans/models.py`, lines 159 to
177).  `amount` and the rate are Django `Decimal` fields, `term_months` is an
`int`; `rate = interest_rate / 100` is `Decimal`, while `term_months / 12` is
a `float`.  The monadic plumbing propagates a Python `TypeError` as `none`. -/
def calculated_interest (method : InterestMethod) (amount rate_percent : ℚ)
    (term_months : Nat) : Option PyNum := do
  let amt := PyNum.pdec amount
  let rate ← pyDiv (PyNum.pdec rate_percent) (PyNum.pint 100)
  match method with
  | InterestMethod.flat => do
      let frac ← pyDiv (PyNum.pint (term_months : Int)) (PyNum.pint 12)
      let x ← pyMul amt rate
      pyMul x frac
  | InterestMethod.reducing => do
      let monthly_rate ← pyDiv rate (PyNum.pint 12)
      let x ← pyMul amt monthly_rate
      pyMul x (PyNum.pint (term_months : Int))
  | InterestMethod.compound => do
      let frac ← pyDiv (PyNum.pint (term_months : Int)) (PyNum.pint 12)
      let base ← pyAdd (PyNum.pint 1) rate
      let pw ← pyPow base frac
      let y ← pySub pw (PyNum.pint 1)
      pyMul amt y

/-- Well-formed installment record: the outstanding fields are nonnegative and
agree with the amount-minus-paid recomputation performed by
`RepaymentSchedule.save`, and the penalty paid so far does not exceed the
accrued penalty. -/
def WF (s : RepaymentSchedule) : Prop :=
  0 ≤ s.principal_outstanding ∧ 0 ≤ s.interest_outstanding ∧
  0 ≤ s.penalty_outstanding ∧ 0 ≤ s.penalty_paid ∧
  s.penalty_paid ≤ s.penalty_outstanding ∧
  s.principal_outstanding = s.principal_amount - s.principal_paid ∧
  s.interest_outstanding = s.interest_amount - s.interest_paid ∧
  s.total_outstanding = s.principal_outstanding + s.interest_outstanding +
    s.penalty_outstanding - s.penalty_paid

/-- An installment was fully covered by the allocation that turned `s` into
`sNew`: both recomputed outstanding components are zero and the whole accrued
penalty was allocated. -/
def FullyCovered (s sNew : RepaymentSchedule) : Prop :=
  sNew.principal_outstanding = 0 ∧ sNew.interest_outstanding = 0 ∧
  sNew.penalty_paid = s.penalty_paid + s.penalty_outstanding

/-- Amount by which one allocation loop iteration raises the penalty paid
field of an installment. -/
def allocPenalty (today : Int) (s : RepaymentSchedule) (r : ℚ) : ℚ :=
  (allocateStep today s r).1.penalty_paid - s.penalty_paid

/-- Amount by which one allocation loop iteration raises the interest paid
field of an installment. -/
def allocInterest (today : Int) (s : RepaymentSchedule) (r : ℚ) : ℚ :=
  (allocateStep today s r).1.interest_paid - s.interest_paid

/-- Amount by which one allocation loop iteration raises the principal paid
field of an installment. -/
def allocPrincipal (today : Int) (s : RepaymentSchedule) (r : ℚ) : ℚ :=
  (allocateStep today s r).1.principal_paid - s.principal_paid

lemma save_principal_paid (today : Int) (s : RepaymentSchedule) :
    (RepaymentSchedule.save today s).principal_paid = s.principal_paid := by
  unfold RepaymentSchedule.save
  split
  · simp
  · split
    · simp
    · split <;> simp

lemma save_interest_paid (today : Int) (s : RepaymentSchedule) :
    (RepaymentSchedule.save today s).interest_paid = s.interest_paid := by
  unfold RepaymentSchedule.save
  split
  · simp
  · split
    · simp
    · split <;> simp

lemma save_penalty_paid (today : Int) (s : RepaymentSchedule) :
    (RepaymentSchedule.save today s).penalty_paid = s.penalty_paid := by
  unfold RepaymentSchedule.save
  split
  · simp
  · split
    · simp
    · split <;> simp

lemma save_total_paid (today : Int) (s : RepaymentSchedule) :
    (RepaymentSchedule.save today s).total_paid = s.total_paid := by
  unfold RepaymentSchedule.save
  split
  · simp
  · split
    · simp
    · split <;> simp

lemma save_penalty_outstanding (today : Int) (s : RepaymentSchedule) :
    (RepaymentSchedule.save today s).penalty_outstanding = s.penalty_outstanding := by
  unfold RepaymentSchedule.save
  split
  · simp
  · split
    · simp
    · split <;> simp

lemma save_principal_outstanding (today : Int) (s : RepaymentSchedule) :
    (RepaymentSchedule.save today s).principal_outstanding =
      s.principal_amount - s.principal_paid := by
  unfold RepaymentSchedule.save
  split
  · simp
  · split
    · simp
    · split <;> simp

lemma save_interest_outstanding (today : Int) (s : RepaymentSchedule) :
    (RepaymentSchedule.save today s).interest_outstanding =
      s.interest_amount - s.interest_paid := by
  unfold RepaymentSchedule.save
  split
  · simp
  · split
    · simp
    · split <;> simp

lemma save_total_outstanding (today : Int) (s : RepaymentSchedule) :
    (RepaymentSchedule.save today s).total_outstanding =
      (s.principal_amount - s.principal_paid) + (s.interest_amount - s.interest_paid) +
      s.penalty_outstanding - s.penalty_paid := by
  unfold RepaymentSchedule.save
  split
  · simp
  · split
    · simp
    · split <;> simp

/-- C6: on every save, the installment status is recomputed as a pure
function of its fields, in the order paid, partial, overdue, pending, exactly
as the specification words it. -/
theorem save_status_matches_spec (today : Int) (s : RepaymentSchedule) :
    (RepaymentSchedule.save today s).status = statusPerSpec today s := by
  unfold RepaymentSchedule.save statusPerSpec
  split
  · simp
  · split
    · simp
    · split <;> simp

/-- Installment used to exercise the penalty component of the save
recomputation: accrued penalty 50, of which 50 already paid. -/
def exPenaltyPaid : RepaymentSchedule where
  installment_number := 1
  due_date := 0
  principal_amount := 100
  interest_amount := 0
  total_amount := 100
  principal_paid := 0
  interest_paid := 0
  penalty_paid := 50
  total_paid := 50
  principal_outstanding := 100
  interest_outstanding := 0
  penalty_outstanding := 50
  total_outstanding := 100
  status := SchedStatus.partiallyPaid
  payment_date := none
  days_overdue := 0

/-- C7 counterexample: saving an installment whose accrued penalty of 50 has
been fully paid leaves `penalty_outstanding` at 50, not at the
due-minus-paid value 0, because `RepaymentSchedule.save` never recomputes
that field. -/
theorem save_penalty_outstanding_stale :
    (RepaymentSchedule.save 0 exPenaltyPaid).penalty_outstanding ≠
      exPenaltyPaid.penalty_outstanding - exPenaltyPaid.penalty_paid := by
  norm_num [RepaymentSchedule.save, exPenaltyPaid]

/-- C7 amended: after every save, the principal and interest outstanding
components equal amount minus paid, but the penalty outstanding field is left
unchanged; the paid penalty is accounted only inside `total_outstanding`. -/
theorem save_outstanding_invariant (today : Int) (s : RepaymentSchedule) :
    (RepaymentSchedule.save today s).principal_outstanding =
      s.principal_amount - s.principal_paid ∧
    (RepaymentSchedule.save today s).interest_outstanding =
      s.interest_amount - s.interest_paid ∧
    (RepaymentSchedule.save today s).penalty_outstanding = s.penalty_outstanding ∧
    (RepaymentSchedule.save today s).total_outstanding =
      (RepaymentSchedule.save today s).principal_outstanding +
      (RepaymentSchedule.save today s).interest_outstanding +
      s.penalty_outstanding - s.penalty_paid := by
  refine ⟨save_principal_outstanding today s, save_interest_outstanding today s,
    save_penalty_outstanding today s, ?_⟩
  rw [save_principal_outstanding, save_interest_outstanding, save_total_outstanding]

lemma allocTriple_caps (s : RepaymentSchedule) (pfs : ℚ) :
    (allocTriple s pfs).1 ≤ s.penalty_outstanding ∧
    (allocTriple s pfs).2.1 ≤ s.interest_outstanding ∧
    (allocTriple s pfs).2.2 ≤ s.principal_outstanding :=
  ⟨min_le_right _ _, min_le_right _ _, min_le_right _ _⟩

lemma allocTriple_sum_le (s : RepaymentSchedule) (pfs : ℚ) :
    (allocTriple s pfs).1 + (allocTriple s pfs).2.1 + (allocTriple s pfs).2.2 ≤ pfs := by
  unfold allocTriple
  have h1 : min pfs s.penalty_outstanding ≤ pfs := min_le_left _ _
  have h2 : min (pfs - min pfs s.penalty_outstanding) s.interest_outstanding ≤
      pfs - min pfs s.penalty_outstanding := min_le_left _ _
  have h3 : min (pfs - min pfs s.penalty_outstanding -
        min (pfs - min pfs s.penalty_outstanding) s.interest_outstanding)
        s.principal_outstanding ≤
      pfs - min pfs s.penalty_outstanding -
        min (pfs - min pfs s.penalty_outstanding) s.interest_outstanding :=
    min_le_left _ _
  dsimp only
  linarith

lemma allocTriple_nonneg (s : RepaymentSchedule) (pfs : ℚ)
    (hpfs : 0 ≤ pfs) (h1 : 0 ≤ s.penalty_outstanding)
    (h2 : 0 ≤ s.interest_outstanding) (h3 : 0 ≤ s.principal_outstanding) :
    0 ≤ (allocTriple s pfs).1 ∧ 0 ≤ (allocTriple s pfs).2.1 ∧
    0 ≤ (allocTriple s pfs).2.2 := by
  unfold allocTriple
  have hp : 0 ≤ min pfs s.penalty_outstanding := le_min hpfs h1
  have hp2 : min pfs s.penalty_outstanding ≤ pfs := min_le_left _ _
  have hi : 0 ≤ min (pfs - min pfs s.penalty_outstanding) s.interest_outstanding :=
    le_min (by linarith) h2
  have hi2 : min (pfs - min pfs s.penalty_outstanding) s.interest_outstanding ≤
      pfs - min pfs s.penalty_outstanding := min_le_left _ _
  have hr : 0 ≤ min (pfs - min pfs s.penalty_outstanding -
      min (pfs - min pfs s.penalty_outstanding) s.interest_outstanding)
      s.principal_outstanding := le_min (by linarith) h3
  exact ⟨hp, hi, hr⟩

lemma allocTriple_waterfall (s : RepaymentSchedule) (pfs : ℚ) :
    (0 < (allocTriple s pfs).2.1 → (allocTriple s pfs).1 = s.penalty_outstanding) ∧
    (0 < (allocTriple s pfs).2.2 → (allocTriple s pfs).2.1 = s.interest_outstanding) := by
  unfold allocTriple
  dsimp only
  constructor
  · intro h
    rcases le_total pfs s.penalty_outstanding with hc | hc
    · rw [min_eq_left hc] at h
      have : min (pfs - pfs) s.interest_outstanding ≤ pfs - pfs := min_le_left _ _
      simp only [sub_self] at h this
      linarith
    · rw [min_eq_right hc]
  · intro h
    rcases le_total (pfs - min pfs s.penalty_outstanding) s.interest_outstanding with hc | hc
    · rw [min_eq_left hc] at h
      have : min (pfs - min pfs s.penalty_outstanding -
            (pfs - min pfs s.penalty_outstanding)) s.principal_outstanding ≤
          pfs - min pfs s.penalty_outstanding - (pfs - min pfs s.penalty_outstanding) :=
        min_le_left _ _
      simp only [sub_self] at h this
      linarith
    · rw [min_eq_right hc]

lemma allocateStep_paid_deltas (today : Int) (s : RepaymentSchedule) (r : ℚ) :
    (allocPenalty today s r = 0 ∧ allocInterest today s r = 0 ∧
     allocPrincipal today s r = 0 ∧
     (allocateStep today s r).1.total_paid - s.total_paid = 0) ∨
    (0 < min r (s.total_outstanding + s.penalty_outstanding) ∧
     allocPenalty today s r =
       (allocTriple s (min r (s.total_outstanding + s.penalty_outstanding))).1 ∧
     allocInterest today s r =
       (allocTriple s (min r (s.total_outstanding + s.penalty_outstanding))).2.1 ∧
     allocPrincipal today s r =
       (allocTriple s (min r (s.total_outstanding + s.penalty_outstanding))).2.2 ∧
     (allocateStep today s r).1.total_paid - s.total_paid =
       (allocTriple s (min r (s.total_outstanding + s.penalty_outstanding))).1 +
       (allocTriple s (min r (s.total_outstanding + s.penalty_outstanding))).2.1 +
       (allocTriple s (min r (s.total_outstanding + s.penalty_outstanding))).2.2) := by
  by_cases h : 0 < min r (s.total_outstanding + s.penalty_outstanding)
  · right
    refine ⟨h, ?_, ?_, ?_, ?_⟩ <;>
      simp [allocPenalty, allocInterest, allocPrincipal, allocateStep, h,
        save_principal_paid, save_interest_paid, save_penalty_paid, save_total_paid]
  · left
    refine ⟨?_, ?_, ?_, ?_⟩ <;>
      simp [allocPenalty, allocInterest, allocPrincipal, allocateStep, h]

/-- Installment from the C1 worked example: principal outstanding 1000,
interest outstanding 200, accrued penalty 50, nothing paid yet. -/
def exWaterfall : RepaymentSchedule where
  installment_number := 1
  due_date := 0
  principal_amount := 1000
  interest_amount := 200
  total_amount := 1200
  principal_paid := 0
  interest_paid := 0
  penalty_paid := 0
  total_paid := 0
  principal_outstanding := 1000
  interest_outstanding := 200
  penalty_outstanding := 50
  total_outstanding := 1250
  status := SchedStatus.pending
  payment_date := none
  days_overdue := 0

/-- C1: within one installment the allocation follows the strict waterfall:
the penalty share is nonnegative and capped at the penalty outstanding, then
interest capped at interest outstanding, then principal capped at principal
outstanding; interest is only reduced once the penalty cap is exhausted, and
principal only once the interest cap is exhausted.  On the worked example
(1000 principal, 200 interest, 50 penalty outstanding, payment 300) the paid
fields rise by 50, 200 and 50 respectively. -/
theorem waterfall_within_installment (today : Int) (s : RepaymentSchedule) (r : ℚ)
    (h1 : 0 ≤ s.penalty_outstanding) (h2 : 0 ≤ s.interest_outstanding)
    (h3 : 0 ≤ s.principal_outstanding) :
    (0 ≤ allocPenalty today s r ∧ allocPenalty today s r ≤ s.penalty_outstanding) ∧
    (0 ≤ allocInterest today s r ∧ allocInterest today s r ≤ s.interest_outstanding) ∧
    (0 ≤ allocPrincipal today s r ∧ allocPrincipal today s r ≤ s.principal_outstanding) ∧
    (0 < allocInterest today s r → allocPenalty today s r = s.penalty_outstanding) ∧
    (0 < allocPrincipal today s r → allocInterest today s r = s.interest_outstanding) ∧
    (allocPenalty 0 exWaterfall 300 = 50 ∧ allocInterest 0 exWaterfall 300 = 200 ∧
     allocPrincipal 0 exWaterfall 300 = 50) := by
  have hex : allocPenalty 0 exWaterfall 300 = 50 ∧ allocInterest 0 exWaterfall 300 = 200 ∧
      allocPrincipal 0 exWaterfall 300 = 50 := by
    norm_num [allocPenalty, allocInterest, allocPrincipal, allocateStep, allocTriple,
      RepaymentSchedule.save, exWaterfall, min_def]
  rcases allocateStep_paid_deltas today s r with
    ⟨d1, d2, d3, -⟩ | ⟨hpos, d1, d2, d3, -⟩
  · rw [d1, d2, d3]
    exact ⟨⟨le_refl 0, h1⟩, ⟨le_refl 0, h2⟩, ⟨le_refl 0, h3⟩,
      fun h => absurd h (by norm_num), fun h => absurd h (by norm_num), hex⟩
  · rw [d1, d2, d3]
    obtain ⟨w1, w2⟩ := allocTriple_waterfall s
      (min r (s.total_outstanding + s.penalty_outstanding))
    obtain ⟨n1, n2, n3⟩ := allocTriple_nonneg s
      (min r (s.total_outstanding + s.penalty_outstanding)) (le_of_lt hpos) h1 h2 h3
    obtain ⟨c1, c2, c3⟩ := allocTriple_caps s
      (min r (s.total_outstanding + s.penalty_outstanding))
    exact ⟨⟨n1, c1⟩, ⟨n2, c2⟩, ⟨n3, c3⟩, w1, w2, hex⟩

/-- C1 witness: the waterfall theorem applied to the worked example. -/
theorem waterfall_within_installment_witness :
    (0 ≤ allocPenalty 0 exWaterfall 300 ∧
     allocPenalty 0 exWaterfall 300 ≤ exWaterfall.penalty_outstanding) ∧
    (0 ≤ allocInterest 0 exWaterfall 300 ∧
     allocInterest 0 exWaterfall 300 ≤ exWaterfall.interest_outstanding) ∧
    (0 ≤ allocPrincipal 0 exWaterfall 300 ∧
     allocPrincipal 0 exWaterfall 300 ≤ exWaterfall.principal_outstanding) ∧
    (0 < allocInterest 0 exWaterfall 300 →
      allocPenalty 0 exWaterfall 300 = exWaterfall.penalty_outstanding) ∧
    (0 < allocPrincipal 0 exWaterfall 300 →
      allocInterest 0 exWaterfall 300 = exWaterfall.interest_outstanding) ∧
    (allocPenalty 0 exWaterfall 300 = 50 ∧ allocInterest 0 exWaterfall 300 = 200 ∧
     allocPrincipal 0 exWaterfall 300 = 50) :=
  waterfall_within_installment 0 exWaterfall 300 (by norm_num [exWaterfall])
    (by norm_num [exWaterfall]) (by norm_num [exWaterfall])

/-- C5: the amounts one payment allocates to one installment sum to at most
that installments pre-payment outstanding, namely its stored total
outstanding plus its penalty outstanding, which is exactly the
`schedule_outstanding` cap the code computes. -/
theorem sum_alloc_le_outstanding (today : Int) (s : RepaymentSchedule) (r : ℚ)
    (h : 0 ≤ s.total_outstanding + s.penalty_outstanding) :
    allocPenalty today s r + allocInterest today s r + allocPrincipal today s r ≤
      s.total_outstanding + s.penalty_outstanding ∧
    (allocateStep today s r).1.total_paid - s.total_paid ≤
      s.total_outstanding + s.penalty_outstanding := by
  rcases allocateStep_paid_deltas today s r with
    ⟨d1, d2, d3, d4⟩ | ⟨hpos, d1, d2, d3, d4⟩
  · rw [d1, d2, d3, d4]
    norm_num [h]
  · rw [d1, d2, d3, d4]
    have hs := allocTriple_sum_le s (min r (s.total_outstanding + s.penalty_outstanding))
    have hm : min r (s.total_outstanding + s.penalty_outstanding) ≤
        s.total_outstanding + s.penalty_outstanding := min_le_right _ _
    exact ⟨by linarith, by linarith⟩

/-- C5 witness: the per-installment cap theorem applied to the worked
example installment and a payment of 300. -/
theorem sum_alloc_le_outstanding_witness :
    allocPenalty 0 exWaterfall 300 + allocInterest 0 exWaterfall 300 +
      allocPrincipal 0 exWaterfall 300 ≤
      exWaterfall.total_outstanding + exWaterfall.penalty_outstanding ∧
    (allocateStep 0 exWaterfall 300).1.total_paid - exWaterfall.total_paid ≤
      exWaterfall.total_outstanding + exWaterfall.penalty_outstanding :=
  sum_alloc_le_outstanding 0 exWaterfall 300 (by norm_num [exWaterfall])

/-- Loan used by several counterexamples: active, 500 outstanding balance,
nothing paid. -/
def exLoanActive500 : Loan where
  principal_amount := 1000
  interest_rate := 10
  term_months := 12
  total_interest := 0
  outstanding_balance := 500
  outstanding_interest := 0
  total_paid := 0
  penalty_balance := 0
  status := LoanStatus.active

/-- Completed transaction of 100 with the allocation breakdown fields at
their Django defaults of 0, as `allocate_to_schedules` leaves them. -/
def exTxn100 : RepaymentTransaction where
  amount := 100
  principal_amount := 0
  interest_amount := 0
  penalty_amount := 0
  status := TxnStatus.completed

/-- Pending installment of 500 principal, fully outstanding. -/
def exSched500 : RepaymentSchedule where
  installment_number := 1
  due_date := 0
  principal_amount := 500
  interest_amount := 0
  total_amount := 500
  principal_paid := 0
  interest_paid := 0
  penalty_paid := 0
  total_paid := 0
  principal_outstanding := 500
  interest_outstanding := 0
  penalty_outstanding := 0
  total_outstanding := 500
  status := SchedStatus.pending
  payment_date := none
  days_overdue := 0

/-- C3 counterexample: a completed 100 payment against a loan with 500
outstanding puts 100 of principal into the installment, yet the loan ledger
outstanding balance stays 500, because `update_loan_balances` subtracts the
transaction breakdown fields (still 0), not the amounts the allocator
assigned. -/
theorem ledger_ignores_actual_allocation :
    (((RepaymentTransaction.save 0 exTxn100 exLoanActive500 [exSched500]).2.getD
        ([], 0)).1.getD 0 default).principal_paid - exSched500.principal_paid = 100 ∧
    (RepaymentTransaction.save 0 exTxn100 exLoanActive500 [exSched500]).1.outstanding_balance
      = 500 ∧
    (RepaymentTransaction.save 0 exTxn100 exLoanActive500 [exSched500]).1.outstanding_balance
      ≠ exLoanActive500.outstanding_balance - 100 := by
  norm_num [RepaymentTransaction.save, update_loan_balances, combinedOutstanding,
    allocate_to_schedules, selectSorted, allocateList, allocateStep, allocTriple,
    RepaymentSchedule.save, selectable, List.insertionSort, List.orderedInsert,
    exTxn100, exLoanActive500, exSched500, min_def, max_def]

/-- C3 amended: `update_loan_balances` adds the full transaction amount to
`total_paid` and subtracts the transaction breakdown fields
(`principal_amount`, `interest_amount`, `penalty_amount`) from the three
balances, clamping each at zero from below; the resulting ledger is entirely
independent of the per-installment allocation, which never writes those
fields back. -/
theorem ledger_update_from_txn_fields (today : Int) (t : RepaymentTransaction)
    (loan : Loan) (ss ss2 : List RepaymentSchedule) :
    (update_loan_balances t loan).total_paid = loan.total_paid + t.amount ∧
    (update_loan_balances t loan).outstanding_balance =
      max (loan.outstanding_balance - t.principal_amount) 0 ∧
    (update_loan_balances t loan).outstanding_interest =
      max (loan.outstanding_interest - t.interest_amount) 0 ∧
    (update_loan_balances t loan).penalty_balance =
      max (loan.penalty_balance - t.penalty_amount) 0 ∧
    0 ≤ (update_loan_balances t loan).outstanding_balance ∧
    0 ≤ (update_loan_balances t loan).outstanding_interest ∧
    0 ≤ (update_loan_balances t loan).penalty_balance ∧
    (RepaymentTransaction.save today t loan ss).1 =
      (RepaymentTransaction.save today t loan ss2).1 := by
  constructor
  · unfold update_loan_balances
    dsimp only
    split <;> simp
  constructor
  · unfold update_loan_balances
    dsimp only
    split <;> simp
  constructor
  · unfold update_loan_balances
    dsimp only
    split <;> simp
  constructor
  · unfold update_loan_balances
    dsimp only
    split <;> simp
  refine ⟨?_, ?_, ?_, ?_⟩
  · unfold update_loan_balances
    dsimp only
    split <;> simp [le_max_right]
  · unfold update_loan_balances
    dsimp only
    split <;> simp [le_max_right]
  · unfold update_loan_balances
    dsimp only
    split <;> simp [le_max_right]
  · unfold RepaymentTransaction.save
    split <;> simp

/-- C4 counterexample: the admin bulk action marks an active loan with a
combined outstanding of 500 as completed, so completed status is reachable
with combined outstanding far above the 1.00 tolerance. -/
theorem mark_completed_ignores_outstanding :
    (mark_as_completed exLoanActive500).status = LoanStatus.completed ∧
    combinedOutstanding (mark_as_completed exLoanActive500) = 500 ∧
    ¬ combinedOutstanding (mark_as_completed exLoanActive500) ≤ 1 := by
  norm_num [mark_as_completed, combinedOutstanding, exLoanActive500]

/-- C4 amended: inside the payment-driven ledger update, the resulting status
is completed exactly when the post-update combined outstanding is at most
1.00 or the loan already had completed status; independently, the admin bulk
action `mark_as_completed` sets any active loan to completed with no
outstanding check. -/
theorem completed_iff_tolerance (t : RepaymentTransaction) (loan : Loan) :
    ((update_loan_balances t loan).status = LoanStatus.completed ↔
      combinedOutstanding (update_loan_balances t loan) ≤ 1 ∨
      loan.status = LoanStatus.completed) ∧
    (loan.status = LoanStatus.active →
      (mark_as_completed loan).status = LoanStatus.completed) := by
  constructor
  · unfold update_loan_balances combinedOutstanding
    dsimp only
    split
    · rename_i h
      simp [h]
    · rename_i h
      simp [h]
  · intro h
    unfold mark_as_completed
    rw [if_pos h]

/-- C4 witness: the tolerance theorem applied to a completed 100 payment
against the 500-outstanding active loan, and to the admin action on the same
loan. -/
theorem completed_iff_tolerance_witness :
    ((update_loan_balances exTxn100 exLoanActive500).status = LoanStatus.completed ↔
      combinedOutstanding (update_loan_balances exTxn100 exLoanActive500) ≤ 1 ∨
      exLoanActive500.status = LoanStatus.completed) ∧
    (exLoanActive500.status = LoanStatus.active →
      (mark_as_completed exLoanActive500).status = LoanStatus.completed) :=
  completed_iff_tolerance exTxn100 exLoanActive500

lemma allocateList_nonpos (today : Int) (l : List RepaymentSchedule) (r : ℚ)
    (h : r ≤ 0) : allocateList today l r = (l, r) := by
  cases l with
  | nil => rfl
  | cons s rest => simp [allocateList, h]

/-- Completed transaction with a negative amount and default breakdown. -/
def exTxnNeg : RepaymentTransaction where
  amount := -100
  principal_amount := 0
  interest_amount := 0
  penalty_amount := 0
  status := TxnStatus.completed

/-- Completed transaction with a zero amount and default breakdown. -/
def exTxnZero : RepaymentTransaction where
  amount := 0
  principal_amount := 0
  interest_amount := 0
  penalty_amount := 0
  status := TxnStatus.completed

/-- C9 counterexample: a zero payment amount passes the
`MinValueValidator(0)` check rather than being rejected, and a negative
completed transaction still reaches the ledger update, changing the loan
total paid from 0 to -100. -/
theorem zero_amount_not_rejected :
    amount_is_valid 0 = true ∧
    (RepaymentTransaction.save 0 exTxnNeg exLoanActive500 []).1.total_paid ≠
      exLoanActive500.total_paid := by
  constructor
  · rfl
  · norm_num [RepaymentTransaction.save, update_loan_balances, combinedOutstanding,
      exTxnNeg, exLoanActive500]

/-- C9 amended: the field validator accepts exactly the nonnegative amounts,
so only negative amounts are rejected at validation; for any non-positive
amount the allocation loop exits at once, leaving every selected installment
unchanged and the full amount unallocated; and a zero-amount completed
transaction with the default breakdown fields leaves all numeric ledger
balances of a loan with nonnegative balances unchanged (only the status can
still flip to completed through the tolerance check). -/
theorem nonpositive_amount_allocation (today : Int) (a : ℚ)
    (ss : List RepaymentSchedule) (t : RepaymentTransaction) (loan : Loan)
    (ha : a ≤ 0) (ht : t.amount = 0) (hp : t.principal_amount = 0)
    (hi : t.interest_amount = 0) (hpe : t.penalty_amount = 0)
    (hb : 0 ≤ loan.outstanding_balance) (hbi : 0 ≤ loan.outstanding_interest)
    (hbp : 0 ≤ loan.penalty_balance) :
    (amount_is_valid a = true ↔ 0 ≤ a) ∧
    allocate_to_schedules today a ss = (selectSorted ss, a) ∧
    (update_loan_balances t loan).total_paid = loan.total_paid ∧
    (update_loan_balances t loan).outstanding_balance = loan.outstanding_balance ∧
    (update_loan_balances t loan).outstanding_interest = loan.outstanding_interest ∧
    (update_loan_balances t loan).penalty_balance = loan.penalty_balance := by
  refine ⟨by simp [amount_is_valid], ?_, ?_, ?_, ?_, ?_⟩
  · unfold allocate_to_schedules
    exact allocateList_nonpos today (selectSorted ss) a ha
  all_goals
    unfold update_loan_balances
    dsimp only
    rw [ht, hp, hi, hpe]
    split <;> simp [max_eq_left, hb, hbi, hbp]

/-- C9 witness: the amended statement applied to a zero payment against the
500-outstanding active loan with an empty schedule list. -/
theorem nonpositive_amount_allocation_witness :
    (amount_is_valid 0 = true ↔ (0:ℚ) ≤ 0) ∧
    allocate_to_schedules 0 0 [] = (selectSorted [], 0) ∧
    (update_loan_balances exTxnZero exLoanActive500).total_paid =
      exLoanActive500.total_paid ∧
    (update_loan_balances exTxnZero exLoanActive500).outstanding_balance =
      exLoanActive500.outstanding_balance ∧
    (update_loan_balances exTxnZero exLoanActive500).outstanding_interest =
      exLoanActive500.outstanding_interest ∧
    (update_loan_balances exTxnZero exLoanActive500).penalty_balance =
      exLoanActive500.penalty_balance :=
  nonpositive_amount_allocation 0 0 [] exTxnZero exLoanActive500 le_rfl rfl rfl rfl rfl
    (by norm_num [exLoanActive500]) (by norm_num [exLoanActive500])
    (by norm_num [exLoanActive500])

/-- Loan close to payoff: 10 outstanding, 990 already paid of a 1000
principal with no interest. -/
def exLoanNearPaid : Loan where
  principal_amount := 1000
  interest_rate := 10
  term_months := 12
  total_interest := 0
  outstanding_balance := 10
  outstanding_interest := 0
  total_paid := 990
  penalty_balance := 0
  status := LoanStatus.active

/-- Completed transaction of 2000, far more than the outstanding 10. -/
def exTxnOver : RepaymentTransaction where
  amount := 2000
  principal_amount := 0
  interest_amount := 0
  penalty_amount := 0
  status := TxnStatus.completed

/-- C10: saving a completed transaction adds the full transaction amount to
the loan total paid, with no cap at the outstanding; on the concrete
overpayment (2000 against 10 outstanding, 990 of 1000 already paid) the
total paid becomes 2990 and the completion percentage 299, above 100. -/
theorem total_paid_adds_full_amount (today : Int) (t : RepaymentTransaction)
    (loan : Loan) (ss : List RepaymentSchedule)
    (h : t.status = TxnStatus.completed) :
    (RepaymentTransaction.save today t loan ss).1.total_paid =
      loan.total_paid + t.amount ∧
    (combinedOutstanding exLoanNearPaid < exTxnOver.amount ∧
     (RepaymentTransaction.save 0 exTxnOver exLoanNearPaid []).1.total_paid = 2990 ∧
     completion_percentage (RepaymentTransaction.save 0 exTxnOver exLoanNearPaid []).1
       > 100) := by
  constructor
  · unfold RepaymentTransaction.save
    rw [if_pos h]
    unfold update_loan_balances
    dsimp only
    split <;> simp
  · refine ⟨by norm_num [combinedOutstanding, exLoanNearPaid, exTxnOver], ?_, ?_⟩ <;>
      norm_num [RepaymentTransaction.save, update_loan_balances, combinedOutstanding,
        completion_percentage, exLoanNearPaid, exTxnOver, max_def]

/-- C10 witness: the theorem applied to the overpayment example. -/
theorem total_paid_adds_full_amount_witness :
    (RepaymentTransaction.save 0 exTxnOver exLoanNearPaid []).1.total_paid =
      exLoanNearPaid.total_paid + exTxnOver.amount :=
  (total_paid_adds_full_amount 0 exTxnOver exLoanNearPaid [] rfl).1

/-- C8: of the three interest methods, only the reducing branch completes,
returning amount times the monthly rate times the term; the flat and
compound branches both die with a Python TypeError, because
`term_months / 12` is a `float` and `Decimal` arithmetic refuses `float`
operands in the multiplication and the power respectively. -/
theorem calculated_interest_branches (amount rate_percent : ℚ) (term_months : Nat) :
    calculated_interest InterestMethod.flat amount rate_percent term_months = none ∧
    calculated_interest InterestMethod.compound amount rate_percent term_months = none ∧
    calculated_interest InterestMethod.reducing amount rate_percent term_months =
      some (PyNum.pdec (amount * (rate_percent / 100 / 12) * (term_months : ℚ))) := by
  refine ⟨?_, ?_, ?_⟩ <;>
    simp [calculated_interest, pyDiv, pyMul, pyAdd, pySub, pyPow, Option.bind,
      mul_comm, mul_assoc, mul_left_comm]

/-- The waterfall triple one loop iteration computes, with the payment slice
already capped at the schedule outstanding. -/
def stepTriple (s : RepaymentSchedule) (r : ℚ) : ℚ × ℚ × ℚ :=
  allocTriple s (min r (s.total_outstanding + s.penalty_outstanding))

lemma allocateStep_eq (today : Int) (s : RepaymentSchedule) (r : ℚ) :
    (min r (s.total_outstanding + s.penalty_outstanding) ≤ 0 ∧
      allocateStep today s r = (s, r)) ∨
    (0 < min r (s.total_outstanding + s.penalty_outstanding) ∧
      allocateStep today s r =
        (RepaymentSchedule.save today
          { s with
            penalty_paid := s.penalty_paid + (stepTriple s r).1,
            interest_paid := s.interest_paid + (stepTriple s r).2.1,
            principal_paid := s.principal_paid + (stepTriple s r).2.2,
            total_paid := s.total_paid +
              ((stepTriple s r).1 + (stepTriple s r).2.1 + (stepTriple s r).2.2) },
         r - ((stepTriple s r).1 + (stepTriple s r).2.1 + (stepTriple s r).2.2))) := by
  by_cases h : 0 < min r (s.total_outstanding + s.penalty_outstanding)
  · right
    refine ⟨h, ?_⟩
    simp [allocateStep, stepTriple, h]
  · left
    refine ⟨not_lt.mp h, ?_⟩
    simp [allocateStep, h]

lemma allocTriple_total (s : RepaymentSchedule) (pfs : ℚ)
    (hi : 0 ≤ s.interest_outstanding) (hp : 0 ≤ s.principal_outstanding) :
    (allocTriple s pfs).1 + (allocTriple s pfs).2.1 + (allocTriple s pfs).2.2 = pfs ∨
    ((allocTriple s pfs).1 = s.penalty_outstanding ∧
     (allocTriple s pfs).2.1 = s.interest_outstanding ∧
     (allocTriple s pfs).2.2 = s.principal_outstanding) := by
  unfold allocTriple
  dsimp only
  rcases le_total pfs s.penalty_outstanding with h1 | h1
  · left
    rw [min_eq_left h1, sub_self, min_eq_left hi, sub_self, min_eq_left hp]
    ring
  · rw [min_eq_right h1]
    rcases le_total (pfs - s.penalty_outstanding) s.interest_outstanding with h2 | h2
    · left
      rw [min_eq_left h2, sub_self, min_eq_left hp]
      ring
    · rw [min_eq_right h2]
      rcases le_total (pfs - s.penalty_outstanding - s.interest_outstanding)
        s.principal_outstanding with h3 | h3
      · left
        rw [min_eq_left h3]
        ring
      · right
        rw [min_eq_right h3]
        exact ⟨rfl, rfl, rfl⟩

lemma step_caps_hit (s : RepaymentSchedule) (r : ℚ) (hwf : WF s)
    (hleft : 0 < r - ((stepTriple s r).1 + (stepTriple s r).2.1 + (stepTriple s r).2.2)) :
    (stepTriple s r).1 = s.penalty_outstanding ∧
    (stepTriple s r).2.1 = s.interest_outstanding ∧
    (stepTriple s r).2.2 = s.principal_outstanding := by
  obtain ⟨w1, w2, w3, w4, w5, w6, w7, w8⟩ := hwf
  unfold stepTriple at hleft ⊢
  rcases allocTriple_total s (min r (s.total_outstanding + s.penalty_outstanding)) w2 w1
    with hsum | hcaps
  · rcases le_total r (s.total_outstanding + s.penalty_outstanding) with hc | hc
    · exfalso
      rw [min_eq_left hc] at hsum hleft
      linarith
    · rw [min_eq_right hc] at hsum hleft ⊢
      obtain ⟨c1, c2, c3⟩ := allocTriple_caps s
        (s.total_outstanding + s.penalty_outstanding)
      refine ⟨by linarith, by linarith, by linarith⟩
  · exact hcaps

lemma step_fullyCovered (today : Int) (s : RepaymentSchedule) (r : ℚ)
    (hwf : WF s) (hr : 0 < r) (hpos : 0 < (allocateStep today s r).2) :
    FullyCovered s (allocateStep today s r).1 := by
  obtain ⟨w1, w2, w3, w4, w5, w6, w7, w8⟩ := hwf
  rcases allocateStep_eq today s r with ⟨h, heq⟩ | ⟨h, heq⟩
  · rw [heq]
    have hso : s.total_outstanding + s.penalty_outstanding ≤ 0 := by
      rcases min_le_iff.mp h with hc | hc
      · linarith
      · exact hc
    rw [w8] at hso
    have hP : s.principal_outstanding = 0 := by linarith
    have hI : s.interest_outstanding = 0 := by linarith
    have hPen : s.penalty_outstanding = 0 := by linarith
    exact ⟨hP, hI, by rw [hPen, add_zero]⟩
  · rw [heq] at hpos ⊢
    have hcaps := step_caps_hit s r ⟨w1, w2, w3, w4, w5, w6, w7, w8⟩ hpos
    refine ⟨?_, ?_, ?_⟩
    · rw [save_principal_outstanding]
      dsimp only
      rw [hcaps.2.2] at *
      linarith
    · rw [save_interest_outstanding]
      dsimp only
      rw [hcaps.2.1] at *
      linarith
    · rw [save_penalty_paid]
      dsimp only
      rw [hcaps.1]

lemma allocateList_cover (today : Int) (l : List RepaymentSchedule) :
    ∀ (r : ℚ), (∀ s ∈ l, WF s) →
      ∀ i j : Nat, i < j → j < l.length →
      ((allocateList today l r).1.getD j default).total_paid ≠
        (l.getD j default).total_paid →
      FullyCovered (l.getD i default) ((allocateList today l r).1.getD i default) := by
  induction l with
  | nil =>
    intro r hwf i j hij hj hch
    exact absurd hj (by simp)
  | cons s rest ih =>
    intro r hwf i j hij hj hch
    by_cases hr : r ≤ 0
    · rw [allocateList_nonpos today _ r hr] at hch
      exact absurd rfl hch
    · have hr0 : 0 < r := not_le.mp hr
      have hl : allocateList today (s :: rest) r =
          ((allocateStep today s r).1 ::
            (allocateList today rest (allocateStep today s r).2).1,
           (allocateList today rest (allocateStep today s r).2).2) := by
        simp [allocateList, hr]
      rw [hl] at hch ⊢
      cases j with
      | zero => exact absurd hij (Nat.not_lt_zero i)
      | succ j2 =>
        have hch2 : ((allocateList today rest
            (allocateStep today s r).2).1.getD j2 default).total_paid ≠
            (rest.getD j2 default).total_paid := by
          simpa using hch
        have hx2 : 0 < (allocateStep today s r).2 := by
          by_contra hcon
          push_neg at hcon
          rw [allocateList_nonpos today rest _ hcon] at hch2
          exact hch2 rfl
        cases i with
        | zero =>
          simpa using step_fullyCovered today s r (hwf s (List.mem_cons_self s rest))
            hr0 hx2
        | succ i2 =>
          have hj2 : j2 < rest.length := Nat.lt_of_succ_lt_succ (by simpa using hj)
          have hrec := ih (allocateStep today s r).2
            (fun t ht => hwf t (List.mem_cons_of_mem s ht)) i2 j2
            (Nat.lt_of_succ_lt_succ hij) hj2 hch2
          simpa using hrec

/-- Installment due in January, 500 principal fully outstanding. -/
def exJan : RepaymentSchedule where
  installment_number := 1
  due_date := 0
  principal_amount := 500
  interest_amount := 0
  total_amount := 500
  principal_paid := 0
  interest_paid := 0
  penalty_paid := 0
  total_paid := 0
  principal_outstanding := 500
  interest_outstanding := 0
  penalty_outstanding := 0
  total_outstanding := 500
  status := SchedStatus.pending
  payment_date := none
  days_overdue := 0

/-- Installment due in February, 500 principal fully outstanding. -/
def exFeb : RepaymentSchedule where
  installment_number := 2
  due_date := 31
  principal_amount := 500
  interest_amount := 0
  total_amount := 500
  principal_paid := 0
  interest_paid := 0
  penalty_paid := 0
  total_paid := 0
  principal_outstanding := 500
  interest_outstanding := 0
  penalty_outstanding := 0
  total_outstanding := 500
  status := SchedStatus.pending
  payment_date := none
  days_overdue := 0

/-- C2: the allocator works on exactly the installments with status pending,
partial or overdue, in ascending due-date order; nothing is allocated when the
amount is not positive; a later-positioned installment only changes if every
earlier selected installment was fully covered; and on the worked example
(two 500 installments, payment 600) the January installment ends fully paid at
500 and the February one partially paid at 100. -/
theorem allocation_order (today : Int) (amount : ℚ) (ss : List RepaymentSchedule)
    (hwf : ∀ s ∈ ss, WF s) :
    (∀ s, s ∈ selectSorted ss ↔ s ∈ ss ∧ selectable s = true) ∧
    List.Sorted dueLE (selectSorted ss) ∧
    (amount ≤ 0 → (allocate_to_schedules today amount ss).1 = selectSorted ss) ∧
    (∀ i j : Nat, i < j → j < (selectSorted ss).length →
      (((allocate_to_schedules today amount ss).1.getD j default).total_paid ≠
        ((selectSorted ss).getD j default).total_paid) →
      FullyCovered ((selectSorted ss).getD i default)
        ((allocate_to_schedules today amount ss).1.getD i default)) ∧
    (((allocate_to_schedules 0 600 [exFeb, exJan]).1.getD 0 default).total_paid = 500 ∧
     ((allocate_to_schedules 0 600 [exFeb, exJan]).1.getD 0 default).status =
       SchedStatus.paid ∧
     ((allocate_to_schedules 0 600 [exFeb, exJan]).1.getD 1 default).total_paid = 100 ∧
     ((allocate_to_schedules 0 600 [exFeb, exJan]).1.getD 1 default).status =
       SchedStatus.partiallyPaid) := by
  refine ⟨?_, ?_, ?_, ?_, ?_⟩
  · intro s
    unfold selectSorted
    rw [List.mem_insertionSort, List.mem_filter]
  · exact List.sorted_insertionSort dueLE (ss.filter selectable)
  · intro h
    unfold allocate_to_schedules
    rw [allocateList_nonpos today _ amount h]
  · intro i j hij hj hch
    refine allocateList_cover today (selectSorted ss) amount ?_ i j hij hj hch
    intro t ht
    unfold selectSorted at ht
    rw [List.mem_insertionSort, List.mem_filter] at ht
    exact hwf t ht.1
  · norm_num [allocate_to_schedules, selectSorted, allocateList, allocateStep,
      allocTriple, RepaymentSchedule.save, selectable, List.insertionSort,
      List.orderedInsert, dueLE, exJan, exFeb, min_def]

/-- C2 witness: the allocation-order theorem applied to the two-installment
worked example. -/
theorem allocation_order_witness :
    ((allocate_to_schedules 0 600 [exFeb, exJan]).1.getD 0 default).total_paid = 500 ∧
    ((allocate_to_schedules 0 600 [exFeb, exJan]).1.getD 1 default).total_paid = 100 := by
  have h := allocation_order 0 600 [exFeb, exJan] (by
    intro s hs
    rcases List.mem_cons.mp hs with h1 | h1
    · subst h1
      norm_num [WF, exFeb]
    · rcases List.mem_cons.mp h1 with h2 | h2
      · subst h2
        norm_num [WF, exJan]
      · exact absurd h2 (List.not_mem_nil s))
  exact ⟨h.2.2.2.2.1, h.2.2.2.2.2.2.1⟩

end AsanaTTI
